import Mathlib

/-!
Shallow embedding of the CleanRoute backend core
(`src/backend/app/{mqtt_commands, mqtt_ingest, zones, db}.py`).

The persistence layer (PostgreSQL, accessed through `db.py`) is modelled as an
explicit in-memory state `AppState` holding the four tables the core touches
(`bins`, `telemetry`, `alerts`, `commands_log`) plus the list of messages handed
to the MQTT client's `publish`.  Each `db.py` helper that the core calls becomes
a pure state transformer; time (`datetime.utcnow()` / SQL `NOW()`) is an
explicit `now : String` parameter; the outcome of the transport's `publish`
call (return with success rc, return with failure rc, or raise) is an explicit
`PublishOutcome` parameter, so every control-flow path of the Python code is a
value of the model.
-/

namespace CleanRoute

/-- A command parameter value, standing for the JSON scalar values the Python
code puts into command payload dictionaries. -/
inductive ParamValue where
  | int (n : Int)
  | rat (q : ℚ)
  | bool (b : Bool)
  | str (s : String)
deriving DecidableEq, Repr

/-- A command `params` object: the Python payload dict, as an ordered
association list of field names to values. -/
abbrev CmdParams := List (String × ParamValue)

/-- One row of the `bins` table (the columns the modelled core reads or
writes: identity, position, lifecycle timestamps, device status, sleep flags
and owner linkage from `register_device`). -/
structure BinRow where
  bin_id : String
  lat : Option ℚ
  lon : Option ℚ
  last_seen : Option String
  last_emptied : Option String
  device_status : String
  sleep_mode : Bool
  last_wake_command : Option String
  user_id : Option String
  user_name : Option String
  user_phone : Option String
deriving DecidableEq, Repr

/-- One row of the append-only `telemetry` table
(`db.insert_telemetry`'s column list). -/
structure TelemetryRow where
  ts : String
  bin_id : String
  fill_pct : ℚ
  batt_v : Option ℚ
  temp_c : Option ℚ
  emptied : Bool
  lat : Option ℚ
  lon : Option ℚ
deriving DecidableEq, Repr

/-- One row of the `alerts` table as written by `db.create_alert`. -/
structure AlertRow where
  bin_id : String
  alert_type : String
  severity : String
  message : String
deriving DecidableEq, Repr

/-- The command envelope built by `send_command`:
`{"command": ..., "timestamp": datetime.utcnow().isoformat(), "params": ...}`. -/
structure CommandEnvelope where
  command : String
  timestamp : String
  params : CmdParams
deriving DecidableEq, Repr

/-- One row of the `commands_log` table as written by `db.log_command`. -/
structure CommandLogRow where
  bin_id : String
  command_type : String
  payload : CommandEnvelope
deriving DecidableEq, Repr

/-- One message handed to `command_client.publish`. -/
structure PublishedMsg where
  topic : String
  payload : CommandEnvelope
  qos : Nat
  retain : Bool
deriving DecidableEq, Repr

/-- The modelled persistent state: the four tables plus the transport's
outbound message list. -/
structure AppState where
  bins : List BinRow
  telemetry : List TelemetryRow
  alerts : List AlertRow
  commandsLog : List CommandLogRow
  published : List PublishedMsg
deriving DecidableEq, Repr

/-- Outcome of the `command_client.publish(...)` call inside `send_command`'s
`try` block: it returns a result with a success rc, returns a result with a
non-success rc, or raises an exception. -/
inductive PublishOutcome where
  | ok
  | errRC
  | raises
deriving DecidableEq, Repr

/-- `mqtt_commands.send_command(bin_id, command_type, payload, qos, retain)`.
The topic is `cleanroute/bins/{bin_id}/command`; the envelope carries the
command type, the issue time and the params (`payload or {}` is the caller
passing `[]` for Python `None`).  Inside the `try`: `publish` runs first and
`db.log_command` runs after it, so when `publish` raises, the `except` branch
returns `False` with neither a published message nor a log row; when `publish`
returns, the message is handed to the client, the log row is inserted, and the
boolean is `rc == MQTT_ERR_SUCCESS`. -/
def send_command (st : AppState) (now : String) (po : PublishOutcome)
    (bin_id command_type : String) (payload : CmdParams) (qos : Nat)
    (retain : Bool) : AppState × Bool :=
  let topic := "cleanroute/bins/" ++ bin_id ++ "/command"
  let command_payload : CommandEnvelope :=
    { command := command_type, timestamp := now, params := payload }
  match po with
  | .raises => (st, false)
  | .errRC =>
      ({ st with
          published := st.published ++ [⟨topic, command_payload, qos, retain⟩],
          commandsLog :=
            st.commandsLog ++ [⟨bin_id, command_type, command_payload⟩] },
        false)
  | .ok =>
      ({ st with
          published := st.published ++ [⟨topic, command_payload, qos, retain⟩],
          commandsLog :=
            st.commandsLog ++ [⟨bin_id, command_type, command_payload⟩] },
        true)

/-- The `UPDATE bins SET last_wake_command = NOW(), sleep_mode = FALSE`
row effect shared by `wake_up_bin` and `broadcast_wake_up`. -/
def wakeRowUpdate (now : String) (b : BinRow) : BinRow :=
  { b with last_wake_command := some now, sleep_mode := false }

/-- The `UPDATE bins SET sleep_mode = TRUE` row effect shared by
`sleep_bin` and `broadcast_sleep`. -/
def sleepRowUpdate (b : BinRow) : BinRow :=
  { b with sleep_mode := true }

/-- The wake-up command params
`{"collection_hours": h, "telemetry_interval_minutes": 60}`. -/
def wakeParams (collection_hours : Int) : CmdParams :=
  [("collection_hours", .int collection_hours),
   ("telemetry_interval_minutes", .int 60)]

/-- `mqtt_commands.wake_up_bin(bin_id, collection_hours)`: first the
`UPDATE ... WHERE bin_id = %s` (committed), then
`send_command(bin_id, "wake_up", payload, qos=1)`. -/
def wake_up_bin (st : AppState) (now : String) (po : PublishOutcome)
    (bin_id : String) (collection_hours : Int) : AppState × Bool :=
  let st1 :=
    { st with
        bins := st.bins.map fun b =>
          if b.bin_id = bin_id then wakeRowUpdate now b else b }
  send_command st1 now po bin_id "wake_up" (wakeParams collection_hours) 1 false

/-- `mqtt_commands.sleep_bin(bin_id)`: the
`UPDATE bins SET sleep_mode = TRUE WHERE bin_id = %s` (committed), then
`send_command(bin_id, "sleep", qos=1)` with no payload. -/
def sleep_bin (st : AppState) (now : String) (po : PublishOutcome)
    (bin_id : String) : AppState × Bool :=
  let st1 :=
    { st with
        bins := st.bins.map fun b =>
          if b.bin_id = bin_id then sleepRowUpdate b else b }
  send_command st1 now po bin_id "sleep" [] 1 false

/-- `mqtt_commands.reset_emptied_flag(bin_id)`. -/
def reset_emptied_flag (st : AppState) (now : String) (po : PublishOutcome)
    (bin_id : String) : AppState × Bool :=
  send_command st now po bin_id "reset_emptied" [("emptied", .bool false)] 1 false

/-- `mqtt_commands.request_status(bin_id)`. -/
def request_status (st : AppState) (now : String) (po : PublishOutcome)
    (bin_id : String) : AppState × Bool :=
  send_command st now po bin_id "get_status" [] 1 false

/-- Python truthiness of an optional int (`if telemetry_interval:`):
`None` and `0` are falsy. -/
def truthyInt : Option Int → Bool
  | none => false
  | some n => n ≠ 0

/-- Python truthiness of an optional float (`if battery_threshold:`):
`None` and `0.0` are falsy. -/
def truthyRat : Option ℚ → Bool
  | none => false
  | some q => q ≠ 0

/-- The payload dict built by `update_device_config`: a field is added only
when the corresponding argument is truthy. -/
def configParams (telemetry_interval : Option Int)
    (battery_threshold : Option ℚ) : CmdParams :=
  (if truthyInt telemetry_interval then
      [("telemetry_interval_minutes",
        ParamValue.int (telemetry_interval.getD 0))]
    else []) ++
  (if truthyRat battery_threshold then
      [("battery_threshold_v", ParamValue.rat (battery_threshold.getD 0))]
    else [])

/-- `mqtt_commands.update_device_config(bin_id, telemetry_interval,
battery_threshold)`: builds the params via Python truthiness tests and sends
`update_config`. -/
def update_device_config (st : AppState) (now : String) (po : PublishOutcome)
    (bin_id : String) (telemetry_interval : Option Int)
    (battery_threshold : Option ℚ) : AppState × Bool :=
  send_command st now po bin_id "update_config"
    (configParams telemetry_interval battery_threshold) 1 false

/-- `mqtt_commands.broadcast_wake_up(collection_hours)`: one
`UPDATE bins SET last_wake_command = NOW(), sleep_mode = FALSE` over every row
(committed), then `send_command("broadcast", "wake_up", payload, qos=1)`. -/
def broadcast_wake_up (st : AppState) (now : String) (po : PublishOutcome)
    (collection_hours : Int) : AppState × Bool :=
  let st1 := { st with bins := st.bins.map (wakeRowUpdate now) }
  send_command st1 now po "broadcast" "wake_up" (wakeParams collection_hours)
    1 false

/-- `mqtt_commands.broadcast_sleep()`: one `UPDATE bins SET sleep_mode = TRUE`
over every row, then `send_command("broadcast", "sleep", qos=1)`. -/
def broadcast_sleep (st : AppState) (now : String) (po : PublishOutcome) :
    AppState × Bool :=
  let st1 := { st with bins := st.bins.map sleepRowUpdate }
  send_command st1 now po "broadcast" "sleep" [] 1 false

/-- A rectangular lat/lon bound (`"bounds"` dict in `zones.py`). -/
structure Bounds where
  lat_min : ℚ
  lat_max : ℚ
  lon_min : ℚ
  lon_max : ℚ
deriving DecidableEq, Repr

/-- A zone depot (`"depot"` dict in `zones.py`). -/
structure Depot where
  lat : ℚ
  lon : ℚ
  name : String
deriving DecidableEq, Repr

/-- One zone record of `zones.DISTRICTS[...]["zones"]`. -/
structure Zone where
  id : String
  name : String
  descr : String
  bounds : Bounds
  depot : Depot
  color : String
deriving DecidableEq, Repr

/-- One district record of `zones.DISTRICTS`.  The Python value is a dict
keyed by the district display name; Python dicts iterate in insertion order,
so the table is modelled as a list in declaration order, with the dict key
equal to the `name` field. -/
structure District where
  id : String
  name : String
  center_lat : ℚ
  center_lon : ℚ
  bounds : Bounds
  zones : List Zone
deriving DecidableEq, Repr

/-- The static `zones.DISTRICTS` table, in declaration order. -/
def DISTRICTS : List District :=
  [ { id := "colombo", name := "Colombo",
      center_lat := 6.9271, center_lon := 79.8612,
      bounds := ⟨6.83, 6.98, 79.82, 79.92⟩,
      zones :=
        [ ⟨"colombo_zone1", "Fort & Pettah", "Commercial area",
            ⟨6.925, 6.980, 79.840, 79.865⟩,
            ⟨6.9318, 79.8478, "Fort Depot"⟩, "#FF6B6B"⟩,
          ⟨"colombo_zone2", "Kollupitiya & Bambalapitiya", "Central residential",
            ⟨6.885, 6.925, 79.845, 79.865⟩,
            ⟨6.9045, 79.8580, "Galle Face Depot"⟩, "#4ECDC4"⟩,
          ⟨"colombo_zone3", "Wellawatta & Dehiwala", "South residential",
            ⟨6.830, 6.885, 79.850, 79.875⟩,
            ⟨6.8568, 79.8610, "Dehiwala Depot"⟩, "#45B7D1"⟩,
          ⟨"colombo_zone4", "Nugegoda & Kotte", "Suburban east",
            ⟨6.850, 6.920, 79.875, 79.920⟩,
            ⟨6.8654, 79.8896, "Nugegoda Depot"⟩, "#5F27CD"⟩ ] },
    { id := "kurunegala", name := "Kurunegala",
      center_lat := 7.4867, center_lon := 80.3647,
      bounds := ⟨7.40, 7.55, 80.30, 80.45⟩,
      zones :=
        [ ⟨"kurunegala_zone1", "Town Center", "Commercial & bus stand area",
            ⟨7.480, 7.500, 80.355, 80.375⟩,
            ⟨7.4867, 80.3647, "Kurunegala Main Depot"⟩, "#FF9F43"⟩,
          ⟨"kurunegala_zone2", "North Kurunegala", "Residential north",
            ⟨7.500, 7.550, 80.340, 80.400⟩,
            ⟨7.5100, 80.3700, "North Depot"⟩, "#EE5A24"⟩,
          ⟨"kurunegala_zone3", "South Kurunegala", "Residential south",
            ⟨7.400, 7.480, 80.340, 80.400⟩,
            ⟨7.4500, 80.3600, "South Depot"⟩, "#F79F1F"⟩ ] },
    { id := "galle", name := "Galle",
      center_lat := 6.0328, center_lon := 80.2170,
      bounds := ⟨5.95, 6.10, 80.15, 80.28⟩,
      zones :=
        [ ⟨"galle_zone1", "Galle Fort & Town", "Historic fort and commercial",
            ⟨6.020, 6.050, 80.200, 80.230⟩,
            ⟨6.0328, 80.2170, "Galle Main Depot"⟩, "#1ABC9C"⟩,
          ⟨"galle_zone2", "Unawatuna & South", "Beach and tourist area",
            ⟨5.950, 6.020, 80.200, 80.280⟩,
            ⟨6.0100, 80.2500, "Unawatuna Depot"⟩, "#16A085"⟩ ] },
    { id := "kandy", name := "Kandy",
      center_lat := 7.2906, center_lon := 80.6337,
      bounds := ⟨7.25, 7.35, 80.58, 80.70⟩,
      zones :=
        [ ⟨"kandy_zone1", "Kandy City Center", "Temple, lake, and commercial",
            ⟨7.280, 7.310, 80.620, 80.650⟩,
            ⟨7.2906, 80.6337, "Kandy Main Depot"⟩, "#9B59B6"⟩,
          ⟨"kandy_zone2", "Peradeniya & West", "University and residential",
            ⟨7.250, 7.290, 80.580, 80.620⟩,
            ⟨7.2700, 80.6000, "Peradeniya Depot"⟩, "#8E44AD"⟩ ] },
    { id := "matara", name := "Matara",
      center_lat := 5.9485, center_lon := 80.5353,
      bounds := ⟨5.90, 6.00, 80.48, 80.60⟩,
      zones :=
        [ ⟨"matara_zone1", "Matara Town", "Fort and commercial",
            ⟨5.930, 5.970, 80.520, 80.560⟩,
            ⟨5.9485, 80.5353, "Matara Main Depot"⟩, "#E74C3C"⟩ ] } ]

/-- The containment test
`bounds['lat_min'] <= lat <= bounds['lat_max'] and
 bounds['lon_min'] <= lon <= bounds['lon_max']`. -/
def inBounds (b : Bounds) (lat lon : ℚ) : Bool :=
  decide (b.lat_min ≤ lat) && decide (lat ≤ b.lat_max) &&
  decide (b.lon_min ≤ lon) && decide (lon ≤ b.lon_max)

/-- The district loop of `zones.assign_to_district_and_zone`, recursing over
the (ordered) district list: the first district whose bounds contain the point
wins; within it the first containing zone wins (`List.find?` is the inner
`for`-loop with early `return`); if no zone contains the point the result is
the district's first declared zone
(`list(district['zones'].values())[0] if district['zones'] else None`,
i.e. `List.head?`). -/
def assignFromList (lat lon : ℚ) : List District → Option District × Option Zone
  | [] => (none, none)
  | d :: rest =>
      if inBounds d.bounds lat lon then
        match d.zones.find? (fun z => inBounds z.bounds lat lon) with
        | some z => (some d, some z)
        | none => (some d, d.zones.head?)
      else assignFromList lat lon rest

/-- `zones.assign_to_district_and_zone(lat, lon)`. -/
def assign_to_district_and_zone (lat lon : ℚ) : Option District × Option Zone :=
  assignFromList lat lon DISTRICTS

/-- A successfully JSON-decoded inbound telemetry payload, with each field
optional exactly as `payload.get(...)` sees it.  The `emptied` field stores the
result of `bool(payload.get("emptied", 0))` (absent defaults to false). -/
structure Payload where
  bin_id : Option String
  ts : Option String
  fill_pct : Option ℚ
  batt_v : Option ℚ
  temp_c : Option ℚ
  emptied : Bool
  lat : Option ℚ
  lon : Option ℚ
deriving DecidableEq, Repr

/-- Python `str.split(sep)` for a one-character separator, by structural
recursion over the string's characters (`"a//b".split("/") == ["a","","b"]`,
`"".split("/") == [""]`). -/
def splitChars (sep : Char) : List Char → List Char → List String
  | [], acc => [String.mk acc.reverse]
  | c :: cs, acc =>
      if c = sep then String.mk acc.reverse :: splitChars sep cs []
      else splitChars sep cs (c :: acc)

/-- `topic_parts = msg.topic.split("/"); topic_parts[2] if len(topic_parts) >= 3
else None`: `List.getElem?` at index 2 is `none` exactly when the split has
fewer than three parts. -/
def topicBinId (topic : String) : Option String :=
  (splitChars '/' topic.data [])[2]?

/-- Python `a or b` on an optional string `a`: `None` and the empty string are
falsy, so both fall through to `b` (`bin_id = payload.get("bin_id") or
topic_bin_id`). -/
def pyOrStr (a b : Option String) : Option String :=
  match a with
  | some s => if s = "" then b else some s
  | none => b

/-- `db.upsert_bin(bin_id, lat, lon, last_seen)`:
`INSERT ... ON CONFLICT (bin_id) DO UPDATE SET lat, lon, last_seen`.
A fresh row takes the schema defaults for the remaining columns. -/
def upsert_bin (st : AppState) (bin_id : String) (lat lon : Option ℚ)
    (last_seen : String) : AppState :=
  if st.bins.any fun b => b.bin_id = bin_id then
    { st with
        bins := st.bins.map fun b =>
          if b.bin_id = bin_id then
            { b with lat := lat, lon := lon, last_seen := some last_seen }
          else b }
  else
    { st with
        bins := st.bins ++
          [⟨bin_id, lat, lon, some last_seen, none, "unknown", false, none,
            none, none, none⟩] }

/-- `db.update_device_status(bin_id, status)`. -/
def update_device_status (st : AppState) (bin_id status : String) : AppState :=
  { st with
      bins := st.bins.map fun b =>
        if b.bin_id = bin_id then { b with device_status := status } else b }

/-- `db.update_bin_emptied(bin_id, emptied_at)`. -/
def update_bin_emptied (st : AppState) (bin_id emptied_at : String) : AppState :=
  { st with
      bins := st.bins.map fun b =>
        if b.bin_id = bin_id then { b with last_emptied := some emptied_at }
        else b }

/-- `db.insert_telemetry(...)`: append-only insert. -/
def insert_telemetry (st : AppState) (row : TelemetryRow) : AppState :=
  { st with telemetry := st.telemetry ++ [row] }

/-- `mqtt_ingest.on_message(client, userdata, msg)`.

Inputs: `parseTs` models `dateutil.parser.parse` followed by `.isoformat()`
(`none` = the parse raised); `decoded` is the JSON decode of `msg.payload`
(`none` = `json.JSONDecodeError`).  Every rejection point (`return` after a
warning, or a caught exception) leaves the state unchanged — the handler's
outer `try/except` swallows every fault, so the model is a total function on
states.  The process-global `message_count` counter is not part of the
persisted state and is not modelled. -/
def on_message (parseTs : String → Option String) (st : AppState)
    (topic : String) (decoded : Option Payload) : AppState :=
  match decoded with
  | none => st
  | some payload =>
      match pyOrStr payload.bin_id (topicBinId topic) with
      | none => st
      | some b =>
          if b = "" then st
          else
            match payload.ts with
            | none => st
            | some ts =>
                match payload.fill_pct with
                | none => st
                | some fill_pct =>
                    if 0 ≤ fill_pct ∧ fill_pct ≤ 100 then
                      match parseTs ts with
                      | none => st
                      | some parsed_ts =>
                          let st1 :=
                            upsert_bin st b payload.lat payload.lon parsed_ts
                          let st2 := update_device_status st1 b "online"
                          let st3 :=
                            if payload.emptied then
                              update_bin_emptied st2 b parsed_ts
                            else st2
                          insert_telemetry st3
                            ⟨parsed_ts, b, fill_pct, payload.batt_v,
                              payload.temp_c, payload.emptied, payload.lat,
                              payload.lon⟩
                    else st

/-- The record returned by `start_collection_day`. -/
structure StartDayResult where
  success : Bool
  bins_notified : Nat
  collection_hours : Int
  started_at : String
deriving DecidableEq, Repr

/-- `db.create_alert(bin_id, alert_type, severity, message)`. -/
def create_alert (st : AppState) (bin_id alert_type severity msg : String) :
    AppState :=
  { st with alerts := st.alerts ++ [⟨bin_id, alert_type, severity, msg⟩] }

/-- The reminder message f-string of `start_collection_day`
(a SQL NULL `user_name` renders as Python's `None`). -/
def collectionReminderMsg (user_name : Option String) : String :=
  "Collection day today! Please ensure your bin device is turned on. User: " ++
    user_name.getD "None"

/-- The `for bin in bins: db.create_alert(...)` loop of
`start_collection_day`.  `alertFails b` says whether `db.create_alert` raises
for bin `b`; the loop has no `try/except`, so the first failure propagates
(`Except.error` carrying the state at that point — earlier alerts were each
committed by their own `get_cursor(commit=True)` and persist). -/
def createReminderAlerts (alertFails : String → Bool) :
    List BinRow → AppState → Except AppState AppState
  | [], st => .ok st
  | b :: rest, st =>
      if alertFails b.bin_id then .error st
      else
        createReminderAlerts alertFails rest
          (create_alert st b.bin_id "collection_reminder" "info"
            (collectionReminderMsg b.user_name))

/-- The `SELECT bin_id, user_name, user_phone FROM bins WHERE user_id IS NOT
NULL` of `start_collection_day`. -/
def ownerBins (st : AppState) : List BinRow :=
  st.bins.filter fun b => b.user_id.isSome

/-- `mqtt_commands.start_collection_day(collection_hours)`:
`broadcast_wake_up`, then `SELECT ... FROM bins WHERE user_id IS NOT NULL`,
then one `db.create_alert` per owner bin, then the status record.  An
uncaught `create_alert` failure aborts the function (`Except.error`). -/
def start_collection_day (st : AppState) (now : String) (po : PublishOutcome)
    (alertFails : String → Bool) (collection_hours : Int) :
    Except AppState (AppState × StartDayResult) :=
  let r := broadcast_wake_up st now po collection_hours
  match createReminderAlerts alertFails (ownerBins r.1) r.1 with
  | .error stE => .error stE
  | .ok st2 =>
      .ok (st2, ⟨r.2, (ownerBins r.1).length, collection_hours, now⟩)

/-- The record returned by `end_collection_day`. -/
structure EndDayResult where
  success : Bool
  ended_at : String
deriving DecidableEq, Repr

/-- `mqtt_commands.end_collection_day()`. -/
def end_collection_day (st : AppState) (now : String) (po : PublishOutcome) :
    AppState × EndDayResult :=
  let r := broadcast_sleep st now po
  (r.1, ⟨r.2, now⟩)

/-! ## Theorems -/

/-- The spec's description of the assignment algorithm, written from its words
(spec §4.4): find the first district in declaration order whose rectangle
contains the point; within it the first declared zone whose rectangle contains
the point; fall back to the district's first declared zone; `(none, none)`
when no district matches.  Used only to be compared with the source-derived
`assign_to_district_and_zone`. -/
def assignSpec (lat lon : ℚ) : Option District × Option Zone :=
  match DISTRICTS.find? (fun d => inBounds d.bounds lat lon) with
  | none => (none, none)
  | some d =>
      match d.zones.find? (fun z => inBounds z.bounds lat lon) with
      | some z => (some d, some z)
      | none => (some d, d.zones.head?)

/-- The district recursion is first-match search. -/
theorem assignFromList_eq_find (lat lon : ℚ) (l : List District) :
    assignFromList lat lon l =
      match l.find? (fun d => inBounds d.bounds lat lon) with
      | none => (none, none)
      | some d =>
          match d.zones.find? (fun z => inBounds z.bounds lat lon) with
          | some z => (some d, some z)
          | none => (some d, d.zones.head?) := by
  induction l with
  | nil => rfl
  | cons d rest ih =>
      by_cases h : inBounds d.bounds lat lon
      · simp [assignFromList, List.find?_cons, h]
      · simp [assignFromList, List.find?_cons, h, ih]

/-- Every declared district owns at least one zone. -/
theorem DISTRICTS_zones_ne_nil : ∀ d ∈ DISTRICTS, d.zones ≠ [] := by decide

/-- C6: `assign_to_district_and_zone` equals the spec's first-match algorithm:
districts are scanned in declaration order and the first containing district
wins, then the first containing zone of that district wins, with the
first-declared-zone fallback.  Determinism/idempotence across calls is
immediate because the embedded resolver is a pure function of `(lat, lon)`
over the immutable `DISTRICTS` table. -/
theorem C6_assign_first_match_deterministic (lat lon : ℚ) :
    assign_to_district_and_zone lat lon = assignSpec lat lon :=
  assignFromList_eq_find lat lon DISTRICTS

/-- C3: any point inside at least one declared district's bounding box
resolves to a district together with a non-none zone, and when no zone
rectangle of the matched district contains the point, the zone is that
district's first declared zone. -/
theorem C3_district_implies_zone (lat lon : ℚ)
    (h : ∃ d ∈ DISTRICTS, inBounds d.bounds lat lon = true) :
    ∃ d z, assign_to_district_and_zone lat lon = (some d, some z) ∧
      (d.zones.find? (fun z' => inBounds z'.bounds lat lon) = none →
        d.zones.head? = some z) := by
  have hfind : (DISTRICTS.find? (fun d => inBounds d.bounds lat lon)).isSome := by
    rw [List.find?_isSome]
    exact h
  rw [Option.isSome_iff_exists] at hfind
  obtain ⟨d, hd⟩ := hfind
  have hdmem : d ∈ DISTRICTS := List.mem_of_find?_eq_some hd
  have hzne : d.zones ≠ [] := DISTRICTS_zones_ne_nil d hdmem
  rw [show assign_to_district_and_zone lat lon = assignFromList lat lon DISTRICTS
    from rfl, assignFromList_eq_find, hd]
  cases hz : d.zones.find? (fun z => inBounds z.bounds lat lon) with
  | some z =>
      exact ⟨d, z, by simp [hz], fun hnone => by simp [hz] at hnone⟩
  | none =>
      obtain ⟨z0, tl, hzs⟩ := List.exists_cons_of_ne_nil hzne
      refine ⟨d, z0, ?_, fun _ => by simp [hzs]⟩
      simp only [hz]
      simp [hzs]

/-- Witness for C3 at `(6.93, 79.85)` (the spec's scenario 4). -/
theorem C3_district_implies_zone_witness :
    (∃ d ∈ DISTRICTS, inBounds d.bounds (6.93 : ℚ) (79.85 : ℚ) = true) ∧
    (∃ d z, assign_to_district_and_zone 6.93 79.85 = (some d, some z) ∧
      (d.zones.find? (fun z' => inBounds z'.bounds (6.93 : ℚ) (79.85 : ℚ)) = none →
        d.zones.head? = some z)) :=
  ⟨by with_unfolding_all decide,
    C3_district_implies_zone 6.93 79.85 (by with_unfolding_all decide)⟩

/-- `send_command` never touches the `bins` table. -/
theorem send_command_bins (st : AppState) (now : String) (po : PublishOutcome)
    (bin_id ct : String) (p : CmdParams) (q : Nat) (r : Bool) :
    ((send_command st now po bin_id ct p q r).1).bins = st.bins := by
  cases po <;> rfl

/-- When the transport `publish` returns (success or failure rc),
`send_command` hands exactly one message to the client. -/
theorem send_command_published (st : AppState) (now : String)
    (po : PublishOutcome) (bin_id ct : String) (p : CmdParams) (q : Nat)
    (r : Bool) (h : po ≠ PublishOutcome.raises) :
    ((send_command st now po bin_id ct p q r).1).published =
      st.published ++
        [⟨"cleanroute/bins/" ++ bin_id ++ "/command", ⟨ct, now, p⟩, q, r⟩] := by
  cases po with
  | raises => exact absurd rfl h
  | ok => rfl
  | errRC => rfl

/-- When the transport `publish` returns (success or failure rc),
`send_command` inserts exactly one command-log row. -/
theorem send_command_log (st : AppState) (now : String) (po : PublishOutcome)
    (bin_id ct : String) (p : CmdParams) (q : Nat) (r : Bool)
    (h : po ≠ PublishOutcome.raises) :
    ((send_command st now po bin_id ct p q r).1).commandsLog =
      st.commandsLog ++ [⟨bin_id, ct, ⟨ct, now, p⟩⟩] := by
  cases po with
  | raises => exact absurd rfl h
  | ok => rfl
  | errRC => rfl

/-- When the transport `publish` raises, `send_command` catches the exception
and returns `False` with no state change at all. -/
theorem send_command_raises_eq (st : AppState) (now : String)
    (bin_id ct : String) (p : CmdParams) (q : Nat) (r : Bool) :
    send_command st now PublishOutcome.raises bin_id ct p q r = (st, false) :=
  rfl

/-- A targeted `UPDATE ... WHERE bin_id = %s` over rows none of which match
leaves the table unchanged. -/
theorem map_update_no_match (l : List BinRow) (u : BinRow → BinRow)
    (key : String) (h : ∀ a ∈ l, a.bin_id ≠ key) :
    (l.map fun b => if b.bin_id = key then u b else b) = l := by
  induction l with
  | nil => rfl
  | cons a tl ih =>
      simp only [List.map_cons]
      rw [if_neg (h a (List.mem_cons_self a tl)),
        ih fun x hx => h x (List.mem_cons_of_mem a hx)]

/-- C5: `wake_up_bin` commits `sleep_mode = FALSE` and
`last_wake_command = NOW()` on every matching row and `sleep_bin` commits
`sleep_mode = TRUE`, for every publish outcome (the `UPDATE` happens before
`send_command` and is never rolled back — the conclusions hold whether the
publish succeeds, returns a failure rc, or raises), and on publish failure
the functions still return a failure result while the update stands. -/
theorem C5_optimistic_update_persists (st : AppState) (now : String)
    (po : PublishOutcome) (bin_id : String) (hours : Int) :
    (∀ b ∈ ((wake_up_bin st now po bin_id hours).1).bins, b.bin_id = bin_id →
      b.sleep_mode = false ∧ b.last_wake_command = some now) ∧
    (∀ b ∈ ((sleep_bin st now po bin_id).1).bins, b.bin_id = bin_id →
      b.sleep_mode = true) ∧
    (po ≠ PublishOutcome.ok →
      (wake_up_bin st now po bin_id hours).2 = false ∧
      (sleep_bin st now po bin_id).2 = false) := by
  refine ⟨?_, ?_, ?_⟩
  · intro b hb hid
    simp only [wake_up_bin] at hb
    rw [send_command_bins] at hb
    rcases List.mem_map.1 hb with ⟨a, _, rfl⟩
    by_cases h : a.bin_id = bin_id
    · simp [h, wakeRowUpdate]
    · rw [if_neg h] at hid
      exact absurd hid h
  · intro b hb hid
    simp only [sleep_bin] at hb
    rw [send_command_bins] at hb
    rcases List.mem_map.1 hb with ⟨a, _, rfl⟩
    by_cases h : a.bin_id = bin_id
    · simp [h, sleepRowUpdate]
    · rw [if_neg h] at hid
      exact absurd hid h
  · intro hpo
    constructor
    · simp only [wake_up_bin]
      cases po with
      | ok => exact absurd rfl hpo
      | errRC => rfl
      | raises => rfl
    · simp only [sleep_bin]
      cases po with
      | ok => exact absurd rfl hpo
      | errRC => rfl
      | raises => rfl

/-- Witness for C5: one registered bin `B001` initially asleep; the publish
returns a failure rc, yet the updated row stands and the result is `false`. -/
theorem C5_optimistic_update_persists_witness :
    ((⟨"B001", none, none, none, none, "unknown", false, some "t0", none, none,
        none⟩ : BinRow) ∈
      ((wake_up_bin
          ⟨[⟨"B001", none, none, none, none, "unknown", true, none, none, none,
              none⟩], [], [], [], []⟩
          "t0" PublishOutcome.errRC "B001" 12).1).bins ∧
      (BinRow.bin_id ⟨"B001", none, none, none, none, "unknown", false,
        some "t0", none, none, none⟩) = "B001") ∧
    ((BinRow.sleep_mode ⟨"B001", none, none, none, none, "unknown", false,
        some "t0", none, none, none⟩) = false ∧
      (BinRow.last_wake_command ⟨"B001", none, none, none, none, "unknown",
        false, some "t0", none, none, none⟩) = some "t0") :=
  ⟨⟨by decide, by decide⟩,
    (C5_optimistic_update_persists
        ⟨[⟨"B001", none, none, none, none, "unknown", true, none, none, none,
            none⟩], [], [], [], []⟩
        "t0" PublishOutcome.errRC "B001" 12).1
      ⟨"B001", none, none, none, none, "unknown", false, some "t0", none, none,
        none⟩
      (by decide) (by decide)⟩

/-- C7: `broadcast_wake_up(hours)` sets `sleep_mode = FALSE` and
`last_wake_command = NOW()` on every `bins` row via the single all-rows
`UPDATE` (the new table is one `map` of the old), and when the transport
publish returns it hands exactly one message to the client, addressed to the
broadcast target, with params
`{collection_hours: hours, telemetry_interval_minutes: 60}`. -/
theorem C7_broadcast_wake_up_all_rows_one_publish (st : AppState)
    (now : String) (po : PublishOutcome) (hours : Int) :
    (∀ b ∈ ((broadcast_wake_up st now po hours).1).bins,
      b.sleep_mode = false ∧ b.last_wake_command = some now) ∧
    ((broadcast_wake_up st now po hours).1).bins =
      st.bins.map (wakeRowUpdate now) ∧
    (po ≠ PublishOutcome.raises →
      ((broadcast_wake_up st now po hours).1).published =
        st.published ++
          [⟨"cleanroute/bins/broadcast/command",
            ⟨"wake_up", now,
              [("collection_hours", ParamValue.int hours),
                ("telemetry_interval_minutes", ParamValue.int 60)]⟩, 1,
            false⟩]) := by
  refine ⟨?_, ?_, ?_⟩
  · intro b hb
    simp only [broadcast_wake_up] at hb
    rw [send_command_bins] at hb
    rcases List.mem_map.1 hb with ⟨a, _, rfl⟩
    simp [wakeRowUpdate]
  · simp only [broadcast_wake_up]
    rw [send_command_bins]
  · intro h
    simp only [broadcast_wake_up]
    rw [send_command_published _ _ _ _ _ _ _ _ h]
    rfl

/-- Witness for C7: one bin, publish succeeds. -/
theorem C7_broadcast_wake_up_all_rows_one_publish_witness :
    ((⟨"B001", none, none, none, none, "unknown", false, some "t0", none, none,
        none⟩ : BinRow) ∈
      ((broadcast_wake_up
          ⟨[⟨"B001", none, none, none, none, "unknown", true, none, none, none,
              none⟩], [], [], [], []⟩ "t0" PublishOutcome.ok 6).1).bins) ∧
    ((BinRow.sleep_mode ⟨"B001", none, none, none, none, "unknown", false,
        some "t0", none, none, none⟩) = false ∧
      (BinRow.last_wake_command ⟨"B001", none, none, none, none, "unknown",
        false, some "t0", none, none, none⟩) = some "t0") ∧
    ((broadcast_wake_up
        ⟨[⟨"B001", none, none, none, none, "unknown", true, none, none, none,
            none⟩], [], [], [], []⟩ "t0" PublishOutcome.ok 6).1).published =
      [⟨"cleanroute/bins/broadcast/command",
        ⟨"wake_up", "t0",
          [("collection_hours", ParamValue.int 6),
            ("telemetry_interval_minutes", ParamValue.int 60)]⟩, 1, false⟩] :=
  ⟨by decide,
    (C7_broadcast_wake_up_all_rows_one_publish
        ⟨[⟨"B001", none, none, none, none, "unknown", true, none, none, none,
            none⟩], [], [], [], []⟩ "t0" PublishOutcome.ok 6).1
      ⟨"B001", none, none, none, none, "unknown", false, some "t0", none, none,
        none⟩ (by decide),
    by
      have := (C7_broadcast_wake_up_all_rows_one_publish
          ⟨[⟨"B001", none, none, none, none, "unknown", true, none, none, none,
              none⟩], [], [], [], []⟩ "t0" PublishOutcome.ok 6).2.2
        (by decide)
      simpa using this⟩

/-- C9: `update_device_config` builds its params with Python truthiness tests,
so a zero `telemetry_interval` or zero `battery_threshold` is omitted exactly
as if `None` had been passed, and the corresponding key is absent from the
published params. -/
theorem C9_zero_config_values_omitted (st : AppState) (now : String)
    (po : PublishOutcome) (bin_id : String) (ti : Option Int) (bt : Option ℚ) :
    update_device_config st now po bin_id (some 0) bt =
      update_device_config st now po bin_id none bt ∧
    update_device_config st now po bin_id ti (some 0) =
      update_device_config st now po bin_id ti none ∧
    List.lookup "telemetry_interval_minutes" (configParams (some 0) bt) =
      none ∧
    List.lookup "battery_threshold_v" (configParams ti (some 0)) = none := by
  refine ⟨?_, ?_, ?_, ?_⟩
  · simp [update_device_config, configParams, truthyInt]
  · simp [update_device_config, configParams, truthyRat]
  · cases bt with
    | none => rfl
    | some q =>
        by_cases hq : q = 0
        · simp [configParams, truthyInt, truthyRat, hq]
        · simp [configParams, truthyInt, truthyRat, hq, List.lookup]
  · cases ti with
    | none => rfl
    | some n =>
        by_cases hn : n = 0
        · simp [configParams, truthyInt, truthyRat, hn]
        · simp [configParams, truthyInt, truthyRat, hn, List.lookup]

/-- C10: for a `bin_id` matching no registry row, `wake_up_bin` and
`sleep_bin` leave the `bins` table unchanged (the `UPDATE` matches zero rows,
creating none), yet — whenever the transport publish returns — still publish
to that bin's command topic and still insert one command-log row for the
unknown id. -/
theorem C10_unknown_bin_still_published_and_logged (st : AppState)
    (now : String) (po : PublishOutcome) (bin_id : String) (hours : Int)
    (hunk : ∀ b ∈ st.bins, b.bin_id ≠ bin_id)
    (hpo : po ≠ PublishOutcome.raises) :
    ((wake_up_bin st now po bin_id hours).1).bins = st.bins ∧
    ((wake_up_bin st now po bin_id hours).1).published =
      st.published ++
        [⟨"cleanroute/bins/" ++ bin_id ++ "/command",
          ⟨"wake_up", now, wakeParams hours⟩, 1, false⟩] ∧
    ((wake_up_bin st now po bin_id hours).1).commandsLog =
      st.commandsLog ++ [⟨bin_id, "wake_up", ⟨"wake_up", now, wakeParams hours⟩⟩] ∧
    ((sleep_bin st now po bin_id).1).bins = st.bins ∧
    ((sleep_bin st now po bin_id).1).published =
      st.published ++
        [⟨"cleanroute/bins/" ++ bin_id ++ "/command", ⟨"sleep", now, []⟩, 1,
          false⟩] ∧
    ((sleep_bin st now po bin_id).1).commandsLog =
      st.commandsLog ++ [⟨bin_id, "sleep", ⟨"sleep", now, []⟩⟩] := by
  refine ⟨?_, ?_, ?_, ?_, ?_, ?_⟩
  · simp only [wake_up_bin]
    rw [send_command_bins]
    exact map_update_no_match st.bins (wakeRowUpdate now) bin_id hunk
  · simp only [wake_up_bin]
    rw [send_command_published _ _ _ _ _ _ _ _ hpo]
  · simp only [wake_up_bin]
    rw [send_command_log _ _ _ _ _ _ _ _ hpo]
  · simp only [sleep_bin]
    rw [send_command_bins]
    exact map_update_no_match st.bins sleepRowUpdate bin_id hunk
  · simp only [sleep_bin]
    rw [send_command_published _ _ _ _ _ _ _ _ hpo]
  · simp only [sleep_bin]
    rw [send_command_log _ _ _ _ _ _ _ _ hpo]

/-- Witness for C10: a registry holding only `B001`, targeted at the unknown
id `B999`, with a successful publish. -/
theorem C10_unknown_bin_still_published_and_logged_witness :
    ((∀ b ∈ (AppState.bins
        ⟨[⟨"B001", none, none, none, none, "unknown", false, none, none, none,
            none⟩], [], [], [], []⟩), b.bin_id ≠ "B999") ∧
      (PublishOutcome.ok ≠ PublishOutcome.raises)) ∧
    (((wake_up_bin
        ⟨[⟨"B001", none, none, none, none, "unknown", false, none, none, none,
            none⟩], [], [], [], []⟩ "t0" PublishOutcome.ok "B999" 12).1).bins =
      [⟨"B001", none, none, none, none, "unknown", false, none, none, none,
          none⟩] ∧
      ((wake_up_bin
        ⟨[⟨"B001", none, none, none, none, "unknown", false, none, none, none,
            none⟩], [], [], [], []⟩ "t0" PublishOutcome.ok "B999" 12).1).commandsLog =
        [⟨"B999", "wake_up", ⟨"wake_up", "t0", wakeParams 12⟩⟩]) :=
  ⟨⟨by decide, by decide⟩,
    by
      have h := C10_unknown_bin_still_published_and_logged
        ⟨[⟨"B001", none, none, none, none, "unknown", false, none, none, none,
            none⟩], [], [], [], []⟩ "t0" PublishOutcome.ok "B999" 12
        (by decide) (by decide)
      exact ⟨h.1, by rw [h.2.2.1]; rfl⟩⟩

/-- C1 counterexample: a `send_command` dispatch attempt during which the
transport `publish` raises creates no Command Log Entry at all (zero, not
exactly one) — `db.log_command` sits after `publish` inside the `try`, so the
exception skips it and the function returns `false`. -/
theorem C1_counterexample_publish_exception_skips_log :
    (send_command ⟨[], [], [], [], []⟩ "t0" PublishOutcome.raises "B001"
        "wake_up" [] 1 false).1.commandsLog = [] ∧
    (send_command ⟨[], [], [], [], []⟩ "t0" PublishOutcome.raises "B001"
        "wake_up" [] 1 false).2 = false :=
  ⟨rfl, rfl⟩

/-- C1 (amended): every `send_command` call during which the transport
`publish` returns — with a success or a non-success return code — creates
exactly one Command Log Entry, and so do all seven dispatch wrappers; but when
`publish` raises an exception the call creates no log entry and returns
`false` with no state change. -/
theorem C1_amended_one_log_entry_when_publish_returns (st : AppState)
    (now : String) (po : PublishOutcome) (bin_id ct : String) (p : CmdParams)
    (q : Nat) (r : Bool) (hours : Int) (ti : Option Int) (bt : Option ℚ) :
    (po ≠ PublishOutcome.raises →
      (send_command st now po bin_id ct p q r).1.commandsLog =
        st.commandsLog ++ [⟨bin_id, ct, ⟨ct, now, p⟩⟩]) ∧
    (po = PublishOutcome.raises →
      send_command st now po bin_id ct p q r = (st, false)) ∧
    (po ≠ PublishOutcome.raises →
      ((wake_up_bin st now po bin_id hours).1.commandsLog.length =
          st.commandsLog.length + 1 ∧
        (sleep_bin st now po bin_id).1.commandsLog.length =
          st.commandsLog.length + 1 ∧
        (reset_emptied_flag st now po bin_id).1.commandsLog.length =
          st.commandsLog.length + 1 ∧
        (request_status st now po bin_id).1.commandsLog.length =
          st.commandsLog.length + 1 ∧
        (update_device_config st now po bin_id ti bt).1.commandsLog.length =
          st.commandsLog.length + 1 ∧
        (broadcast_wake_up st now po hours).1.commandsLog.length =
          st.commandsLog.length + 1 ∧
        (broadcast_sleep st now po).1.commandsLog.length =
          st.commandsLog.length + 1)) := by
  refine ⟨fun h => send_command_log st now po bin_id ct p q r h,
    fun h => by rw [h]; rfl, fun h => ?_⟩
  refine ⟨?_, ?_, ?_, ?_, ?_, ?_, ?_⟩ <;>
    simp only [wake_up_bin, sleep_bin, reset_emptied_flag, request_status,
      update_device_config, broadcast_wake_up, broadcast_sleep] <;>
    rw [send_command_log _ _ _ _ _ _ _ _ h] <;>
    simp

/-- Witness for C1 (amended): a publish that returns a success rc logs
exactly one entry. -/
theorem C1_amended_one_log_entry_when_publish_returns_witness :
    (PublishOutcome.ok ≠ PublishOutcome.raises) ∧
    (send_command ⟨[], [], [], [], []⟩ "t0" PublishOutcome.ok "B001" "wake_up"
        [] 1 false).1.commandsLog =
      [⟨"B001", "wake_up", ⟨"wake_up", "t0", []⟩⟩] :=
  ⟨by decide,
    by
      have h := (C1_amended_one_log_entry_when_publish_returns
          ⟨[], [], [], [], []⟩ "t0" PublishOutcome.ok "B001" "wake_up" [] 1
          false 12 none none).1 (by decide)
      simpa using h⟩

/-- C2: an inbound message whose `fill_pct` field is present but outside
`[0, 100]` is rejected: `on_message` returns the state unchanged — no
telemetry row, no bin upsert, no status change — and, being a total function
(the handler's catch-all `except`), propagates no fault. -/
theorem C2_out_of_range_fill_pct_rejected (parseTs : String → Option String)
    (st : AppState) (topic : String) (payload : Payload) (q : ℚ)
    (hq : payload.fill_pct = some q) (hout : ¬(0 ≤ q ∧ q ≤ 100)) :
    on_message parseTs st topic (some payload) = st := by
  unfold on_message
  cases hpy : pyOrStr payload.bin_id (topicBinId topic) with
  | none => simp [hpy]
  | some b =>
      by_cases hb : b = ""
      · simp [hpy, hb]
      · cases hts : payload.ts with
        | none => simp [hpy, hb, hts]
        | some ts => simp [hpy, hb, hts, hq, hout]

/-- Witness for C2: the spec's scenario 2 shape — `fill_pct = 150` is
dropped with no state change. -/
theorem C2_out_of_range_fill_pct_rejected_witness :
    ((Payload.fill_pct
        ⟨some "B001", some "2025-12-12T10:00:00Z", some 150, none, none, false,
          none, none⟩) = some 150 ∧
      ¬((0 : ℚ) ≤ 150 ∧ (150 : ℚ) ≤ 100)) ∧
    on_message (fun s => some s) ⟨[], [], [], [], []⟩
        "cleanroute/bins/B001/telemetry"
        (some ⟨some "B001", some "2025-12-12T10:00:00Z", some 150, none, none,
          false, none, none⟩) =
      ⟨[], [], [], [], []⟩ :=
  ⟨⟨rfl, by with_unfolding_all decide⟩,
    C2_out_of_range_fill_pct_rejected (fun s => some s) ⟨[], [], [], [], []⟩
      "cleanroute/bins/B001/telemetry"
      ⟨some "B001", some "2025-12-12T10:00:00Z", some 150, none, none, false,
        none, none⟩ 150 rfl (by with_unfolding_all decide)⟩

/-- C8 counterexample: a payload whose `bin_id` field is present but equal to
the empty string is not used — Python's `or` is a truthiness test, so the
pipeline silently substitutes the topic-derived id `B001` and stores the
telemetry row under it, contradicting "the effective bin_id equals the
payload's bin_id field when that field is present". -/
theorem C8_counterexample_empty_payload_bin_id_falls_back :
    (Payload.bin_id
      ⟨some "", some "TS", some 50, none, none, false, none, none⟩) =
        some "" ∧
    (on_message (fun s => some s) ⟨[], [], [], [], []⟩
        "cleanroute/bins/B001/telemetry"
        (some ⟨some "", some "TS", some 50, none, none, false, none,
          none⟩)).telemetry =
      [⟨"TS", "B001", 50, none, none, false, none, none⟩] :=
  ⟨rfl, by with_unfolding_all decide⟩

/-- `upsert_bin` never touches the telemetry table. -/
theorem upsert_bin_telemetry (st : AppState) (bin_id : String)
    (lat lon : Option ℚ) (ls : String) :
    (upsert_bin st bin_id lat lon ls).telemetry = st.telemetry := by
  unfold upsert_bin
  split <;> rfl

/-- `on_message` on an accepted message is the step-8..11 pipeline: upsert,
status online, conditional emptied update, telemetry append — all keyed by
the effective bin id. -/
theorem on_message_accept (parseTs : String → Option String) (st : AppState)
    (topic : String) (payload : Payload) (b ts : String) (q : ℚ) (pt : String)
    (hb : pyOrStr payload.bin_id (topicBinId topic) = some b) (hbne : b ≠ "")
    (hts : payload.ts = some ts) (hq : payload.fill_pct = some q)
    (h0 : 0 ≤ q) (h100 : q ≤ 100) (hpt : parseTs ts = some pt) :
    on_message parseTs st topic (some payload) =
      insert_telemetry
        (if payload.emptied then
          update_bin_emptied
            (update_device_status (upsert_bin st b payload.lat payload.lon pt)
              b "online") b pt
        else
          update_device_status (upsert_bin st b payload.lat payload.lon pt)
            b "online")
        ⟨pt, b, q, payload.batt_v, payload.temp_c, payload.emptied,
          payload.lat, payload.lon⟩ := by
  unfold on_message
  simp [hb, hbne, hts, hq, h0, h100, hpt]

/-- C8 (amended): the effective bin id is the payload's `bin_id` field when
that field is present and non-empty (truthy); an absent or empty payload
`bin_id` falls back to the topic-derived id; and when the resulting id is
itself missing or empty the message is rejected with no state change.  An
accepted message's telemetry row is keyed by exactly this effective id. -/
theorem C8_amended_effective_bin_id (parseTs : String → Option String)
    (st : AppState) (topic : String) (payload : Payload) :
    (∀ s, payload.bin_id = some s → s ≠ "" →
      pyOrStr payload.bin_id (topicBinId topic) = some s) ∧
    ((payload.bin_id = none ∨ payload.bin_id = some "") →
      pyOrStr payload.bin_id (topicBinId topic) = topicBinId topic) ∧
    ((pyOrStr payload.bin_id (topicBinId topic) = none ∨
        pyOrStr payload.bin_id (topicBinId topic) = some "") →
      on_message parseTs st topic (some payload) = st) ∧
    (∀ b ts q pt, pyOrStr payload.bin_id (topicBinId topic) = some b →
      b ≠ "" → payload.ts = some ts → payload.fill_pct = some q → 0 ≤ q →
      q ≤ 100 → parseTs ts = some pt →
      (on_message parseTs st topic (some payload)).telemetry =
        st.telemetry ++
          [⟨pt, b, q, payload.batt_v, payload.temp_c, payload.emptied,
            payload.lat, payload.lon⟩]) := by
  refine ⟨?_, ?_, ?_, ?_⟩
  · intro s hs hne
    simp [pyOrStr, hs, hne]
  · intro h
    rcases h with h | h <;> simp [pyOrStr, h]
  · intro h
    unfold on_message
    rcases h with h | h <;> simp [h]
  · intro b ts q pt hb hbne hts hq h0 h100 hpt
    rw [on_message_accept parseTs st topic payload b ts q pt hb hbne hts hq h0
      h100 hpt]
    simp only [insert_telemetry]
    cases hpe : payload.emptied <;>
      simp [hpe, update_bin_emptied, update_device_status,
        upsert_bin_telemetry]

/-- Witness for C8 (amended): a truthy payload `bin_id` (`B777`) wins over
the topic id and keys the stored telemetry row. -/
theorem C8_amended_effective_bin_id_witness :
    ((Payload.bin_id
        ⟨some "B777", some "TS", some 50, none, none, false, none, none⟩) =
          some "B777" ∧
      ("B777" : String) ≠ "" ∧
      pyOrStr (some "B777") (topicBinId "cleanroute/bins/B001/telemetry") =
        some "B777" ∧
      (0 : ℚ) ≤ 50 ∧ (50 : ℚ) ≤ 100) ∧
    (on_message (fun s => some s) ⟨[], [], [], [], []⟩
        "cleanroute/bins/B001/telemetry"
        (some ⟨some "B777", some "TS", some 50, none, none, false, none,
          none⟩)).telemetry =
      [⟨"TS", "B777", 50, none, none, false, none, none⟩] :=
  ⟨⟨rfl, by decide, by decide, by with_unfolding_all decide,
      by with_unfolding_all decide⟩,
    by
      have h := (C8_amended_effective_bin_id (fun s => some s)
          ⟨[], [], [], [], []⟩ "cleanroute/bins/B001/telemetry"
          ⟨some "B777", some "TS", some 50, none, none, false, none,
            none⟩).2.2.2
        "B777" "TS" 50 "TS" (by decide) (by decide) rfl rfl
        (by with_unfolding_all decide) (by with_unfolding_all decide) rfl
      simpa using h⟩

/-- Projects the state carried by a propagated `start_collection_day`
failure onto its alerts table (`none` when the call returned normally). -/
def errAlertsOf : Except AppState (AppState × StartDayResult) →
    Option (List AlertRow)
  | .error st => some st.alerts
  | .ok _ => none

/-- C4 counterexample: two owner-linked bins `O1`, `O2`; `db.create_alert`
raises for `O1`.  The un-guarded loop propagates the exception, so the call
returns no record and `O2` — a remaining owner — gets no alert (the alerts
table of the propagated state is empty). -/
theorem C4_counterexample_alert_failure_blocks_remaining :
    errAlertsOf (start_collection_day
        ⟨[⟨"O1", none, none, none, none, "unknown", false, none, some "u1",
            some "Alice", none⟩,
          ⟨"O2", none, none, none, none, "unknown", false, none, some "u2",
            some "Bob", none⟩], [], [], [], []⟩
        "t0" PublishOutcome.ok (fun id => id == "O1") 12) = some [] := by
  rfl

/-- The alert row `start_collection_day` creates for one owner bin. -/
def mkReminderAlert (b : BinRow) : AlertRow :=
  ⟨b.bin_id, "collection_reminder", "info", collectionReminderMsg b.user_name⟩

/-- When no `create_alert` raises, the reminder loop appends one alert per
owner bin, in order. -/
theorem createReminderAlerts_ok (f : String → Bool) (l : List BinRow)
    (st : AppState) (h : ∀ b ∈ l, f b.bin_id = false) :
    createReminderAlerts f l st =
      .ok { st with alerts := st.alerts ++ l.map mkReminderAlert } := by
  induction l generalizing st with
  | nil => simp [createReminderAlerts]
  | cons b tl ih =>
      have hb := h b (List.mem_cons_self b tl)
      rw [createReminderAlerts, if_neg (by simp [hb]),
        ih _ fun x hx => h x (List.mem_cons_of_mem b hx)]
      simp [create_alert, mkReminderAlert]

/-- The first raising `create_alert` aborts the loop: owners before it keep
their alerts, the failing owner and all owners after it get none. -/
theorem createReminderAlerts_error (f : String → Bool) (pre : List BinRow)
    (b : BinRow) (post : List BinRow) (st : AppState)
    (hpre : ∀ a ∈ pre, f a.bin_id = false) (hb : f b.bin_id = true) :
    createReminderAlerts f (pre ++ b :: post) st =
      .error { st with alerts := st.alerts ++ pre.map mkReminderAlert } := by
  induction pre generalizing st with
  | nil => simp [createReminderAlerts, hb]
  | cons a tl ih =>
      have ha := hpre a (List.mem_cons_self a tl)
      rw [List.cons_append, createReminderAlerts, if_neg (by simp [ha]),
        ih _ fun x hx => hpre x (List.mem_cons_of_mem a hx)]
      simp [create_alert, mkReminderAlert]

/-- C4 (amended): when every owner's alert creation succeeds,
`start_collection_day(hours)` returns the record `{dispatch success flag,
owners notified count, collection hours, start instant}` with one reminder
alert per owner appended; but a failure creating one owner's alert propagates
out of the un-guarded loop — the call returns no record, owners after the
failing one get no alerts, and only the alerts created before the failure
persist. -/
theorem C4_amended_record_and_abort_on_alert_failure (st : AppState)
    (now : String) (po : PublishOutcome) (f : String → Bool) (hours : Int)
    (st1 : AppState) (ok : Bool)
    (h1 : broadcast_wake_up st now po hours = (st1, ok)) :
    ((∀ b ∈ ownerBins st1, f b.bin_id = false) →
      start_collection_day st now po f hours =
        .ok ({ st1 with
                alerts := st1.alerts ++ (ownerBins st1).map mkReminderAlert },
          ⟨ok, (ownerBins st1).length, hours, now⟩)) ∧
    (∀ pre b post, ownerBins st1 = pre ++ b :: post →
      (∀ a ∈ pre, f a.bin_id = false) → f b.bin_id = true →
      start_collection_day st now po f hours =
        .error { st1 with
                  alerts := st1.alerts ++ pre.map mkReminderAlert }) := by
  constructor
  · intro hall
    simp only [start_collection_day, h1]
    rw [createReminderAlerts_ok f _ st1 hall]
  · intro pre b post hsplit hpre hb
    simp only [start_collection_day, h1]
    rw [hsplit, createReminderAlerts_error f pre b post st1 hpre hb]

/-- Witness for C4 (amended): one owner bin, no alert failure — the record
and the single reminder alert are produced. -/
theorem C4_amended_record_and_abort_on_alert_failure_witness :
    (broadcast_wake_up
        ⟨[⟨"O1", none, none, none, none, "unknown", false, none, some "u1",
            some "Alice", none⟩], [], [], [], []⟩ "t0" PublishOutcome.ok 12 =
      ((broadcast_wake_up
          ⟨[⟨"O1", none, none, none, none, "unknown", false, none, some "u1",
              some "Alice", none⟩], [], [], [], []⟩ "t0"
          PublishOutcome.ok 12).1,
        (broadcast_wake_up
          ⟨[⟨"O1", none, none, none, none, "unknown", false, none, some "u1",
              some "Alice", none⟩], [], [], [], []⟩ "t0"
          PublishOutcome.ok 12).2)) ∧
    start_collection_day
        ⟨[⟨"O1", none, none, none, none, "unknown", false, none, some "u1",
            some "Alice", none⟩], [], [], [], []⟩ "t0" PublishOutcome.ok
        (fun _ => false) 12 =
      .ok ({ (broadcast_wake_up
                ⟨[⟨"O1", none, none, none, none, "unknown", false, none,
                    some "u1", some "Alice", none⟩], [], [], [], []⟩ "t0"
                PublishOutcome.ok 12).1 with
              alerts :=
                (broadcast_wake_up
                    ⟨[⟨"O1", none, none, none, none, "unknown", false, none,
                        some "u1", some "Alice", none⟩], [], [], [], []⟩ "t0"
                    PublishOutcome.ok 12).1.alerts ++
                  (ownerBins (broadcast_wake_up
                      ⟨[⟨"O1", none, none, none, none, "unknown", false, none,
                          some "u1", some "Alice", none⟩], [], [], [], []⟩
                      "t0" PublishOutcome.ok 12).1).map mkReminderAlert },
        ⟨(broadcast_wake_up
            ⟨[⟨"O1", none, none, none, none, "unknown", false, none,
                some "u1", some "Alice", none⟩], [], [], [], []⟩ "t0"
            PublishOutcome.ok 12).2,
          (ownerBins (broadcast_wake_up
              ⟨[⟨"O1", none, none, none, none, "unknown", false, none,
                  some "u1", some "Alice", none⟩], [], [], [], []⟩ "t0"
              PublishOutcome.ok 12).1).length, 12, "t0"⟩) :=
  ⟨rfl,
    (C4_amended_record_and_abort_on_alert_failure
        ⟨[⟨"O1", none, none, none, none, "unknown", false, none, some "u1",
            some "Alice", none⟩], [], [], [], []⟩ "t0" PublishOutcome.ok
        (fun _ => false) 12 _ _ rfl).1
      fun _ _ => rfl⟩

end CleanRoute
